import Mathlib

/-!
Shallow embedding of the credential and session-authorization subsystem of the
melikshop backend: the user (credential) record, the JWT utilities
(`src/utils/jwt.utils.ts`), the authentication middleware
(`src/middleware/auth.middleware.ts`), the auth routes (`src/routes/auth.routes.ts`),
and the admin user-management routes (`src/routes/user.routes.ts`).

External collaborators are embedded by their observable contracts:
the MongoDB store is a list of records searched in order (`findOne` is the first
match), the jsonwebtoken library is a record of signed-payload data with a
signature-and-expiry check, the express-rate-limit library is a fixed-window
per-key counter, and the bcrypt hasher is passed in as a pair of functions
(`hash`, `verify`), as the password hooks live in `user.model.ts` which is not
among the sources; the spec describes them in §4.1.
-/

namespace MelikShop

/-- Role enum of the user schema: either `user` or `admin`. -/
inductive Role where
  | user
  | admin
deriving DecidableEq, Repr

/-- Credential record (the user document). Fields follow the spec §3 data model;
profile-only fields (firstName, lastName, phone, address, avatar) are omitted as no
control flow of the embedded routes reads them. `password` holds the stored hash.
`passwordResetExpires` is a millisecond timestamp. -/
structure UserRec where
  id : String
  email : String
  password : String
  role : Role
  isActive : Bool
  isEmailVerified : Bool
  emailVerificationToken : Option String
  passwordResetToken : Option String
  passwordResetExpires : Option Nat
deriving DecidableEq, Repr

/-- The user collection: `findOne` scans it in order. -/
abbrev Store := List UserRec

/-- Mongoose `User.findOne({ email })`. -/
def findByEmail (store : Store) (email : String) : Option UserRec :=
  store.find? (fun u => u.email == email)

/-- Mongoose `User.findById(id)`. -/
def findById (store : Store) (id : String) : Option UserRec :=
  store.find? (fun u => u.id == id)

/-- Mongoose `document.save()`: persist the mutated document over the stored record
with the same id. -/
def saveUser (store : Store) (u : UserRec) : Store :=
  store.map (fun v => if v.id == u.id then u else v)

/-- A signed JWT as the jsonwebtoken library produces it: the payload fields this
repository uses (`userId` and the optional `type` tag), the expiry instant, and the
key it was signed with (signature validity is modelled as key equality). -/
structure SignedToken where
  userId : String
  type : Option String
  exp : Nat
  signedWith : String
deriving DecidableEq, Repr

/-- Failure modes of `jwt.verify`: a bad signature / malformed token, or expiry. -/
inductive JwtError where
  | invalid
  | expired
deriving DecidableEq, Repr

/-- Decoded JWT payload. -/
structure JwtPayload where
  userId : String
  type : Option String
deriving DecidableEq, Repr

/-- `jwt.verify(token, secret)`: the signature must check out against the secret and
the token must be unexpired at the current instant. -/
def jwtVerify (t : SignedToken) (secret : String) (now : Nat) : Except JwtError JwtPayload :=
  if t.signedWith ≠ secret then .error .invalid
  else if t.exp ≤ now then .error .expired
  else .ok ⟨t.userId, t.type⟩

/-- `generateToken` from jwt.utils: signs `{ userId }` with the configured secret and
a configurable lifetime (`JWT_EXPIRES_IN`, default 7 days), here a parameter in
milliseconds. No `type` field is placed in the payload. -/
def generateToken (userId secret : String) (expiresInMs now : Nat) : SignedToken :=
  { userId := userId, type := none, exp := now + expiresInMs, signedWith := secret }

/-- `generateRefreshToken` from jwt.utils: signs `{ userId, type: refresh }` with a
fixed 30-day lifetime. -/
def generateRefreshToken (userId secret : String) (now : Nat) : SignedToken :=
  { userId := userId, type := some "refresh", exp := now + 30 * 24 * 60 * 60 * 1000,
    signedWith := secret }

/-- `verifyToken` from jwt.utils: runs `jwt.verify` and returns the decoded `userId`;
every failure is caught and rethrown as the single message `Invalid token`. The
decoded payload's `type` field is never inspected. -/
def verifyToken (t : SignedToken) (secret : String) (now : Nat) : Except String String :=
  match jwtVerify t secret now with
  | .ok p => .ok p.userId
  | .error _ => .error "Invalid token"

/-- `verifyRefreshToken` from jwt.utils: runs `jwt.verify`, then rejects a decoded
payload whose `type` is not the string `refresh`; every failure (verification or
wrong type) is caught and rethrown as `Invalid refresh token`. -/
def verifyRefreshToken (t : SignedToken) (secret : String) (now : Nat) :
    Except String (String × Option String) :=
  match jwtVerify t secret now with
  | .ok p =>
      if p.type ≠ some "refresh" then .error "Invalid refresh token"
      else .ok (p.userId, p.type)
  | .error _ => .error "Invalid refresh token"

/-- Outcome of a middleware: either a rejection response (status and message) was
sent, or the request proceeds with the resolved user attached. -/
inductive AuthOut where
  | deny (status : Nat) (message : String)
  | allow (u : UserRec)
deriving DecidableEq, Repr

/-- `authMiddleware`: read the bearer token, `jwt.verify` it, look the subject up,
require an active account. In the error handler the `instanceof jwt.JsonWebTokenError`
branch is checked first, and in the jsonwebtoken library `TokenExpiredError` extends
`JsonWebTokenError`, so every verification failure is answered with `Invalid token.`. -/
def authMiddleware (secret : String) (now : Nat) (store : Store)
    (tok : Option SignedToken) : AuthOut :=
  match tok with
  | none => .deny 401 "Access denied. No token provided."
  | some t =>
    match jwtVerify t secret now with
    | .error _ => .deny 401 "Invalid token."
    | .ok p =>
      match findById store p.userId with
      | none => .deny 401 "Invalid token. User not found."
      | some u =>
        if !u.isActive then .deny 401 "Account is deactivated."
        else .allow u

/-- `adminMiddleware`: `authMiddleware` first (its rejection response wins), then the
flat role-equality check. -/
def adminMiddleware (secret : String) (now : Nat) (store : Store)
    (tok : Option SignedToken) : AuthOut :=
  match authMiddleware secret now store tok with
  | .deny s m => .deny s m
  | .allow u =>
    if u.role ≠ Role.admin then .deny 403 "Access denied. Admin privileges required."
    else .allow u

/-- Response of a route as far as the claims observe it: HTTP status, the `message`
field of the JSON body, the issued token and returned user (when the route returns
one), and the store after the request. -/
structure RouteOut where
  status : Nat
  message : String
  token : Option SignedToken := none
  user : Option UserRec := none
  store : Store
deriving DecidableEq, Repr

/-- One fixed-window counter of express-rate-limit: the key (caller IP), the instant
the window resets, and the hits counted in the window. -/
structure RLEntry where
  key : String
  resetTime : Nat
  count : Nat
deriving DecidableEq, Repr

/-- State of one express-rate-limit instance. -/
abbrev RLState := List RLEntry

/-- The 15-minute window (in ms) shared by both limiters of this app. -/
def rlWindowMs : Nat := 15 * 60 * 1000

/-- express-rate-limit on one request: count the hit in the key's current window
(starting or restarting the window when needed) and block iff the hit count now
exceeds the ceiling. Returns (blocked, new state). -/
def rlConsume (windowMs maxHits : Nat) (st : RLState) (key : String) (now : Nat) :
    Bool × RLState :=
  match st.find? (fun e => e.key == key) with
  | some e =>
    if now < e.resetTime then
      (decide (maxHits < e.count + 1),
       st.map (fun e2 => if e2.key == key then { e2 with count := e.count + 1 } else e2))
    else
      (decide (maxHits < 1),
       st.map (fun e2 =>
         if e2.key == key then { e2 with resetTime := now + windowMs, count := 1 } else e2))
  | none => (decide (maxHits < 1), { key := key, resetTime := now + windowMs, count := 1 } :: st)

/-- Login route handler (after the limiters): find by email, check the password via
the hasher's verify, require an active account, issue an access token. -/
def loginHandler (verify : String → String → Bool) (store : Store)
    (email password secret : String) (accessExpMs now : Nat) : RouteOut :=
  match findByEmail store email with
  | none => { status := 401, message := "Invalid email or password", store := store }
  | some u =>
    if !(verify password u.password) then
      { status := 401, message := "Invalid email or password", store := store }
    else if !u.isActive then
      { status := 401, message := "Account is deactivated", store := store }
    else
      { status := 200, message := "Login successful",
        token := some (generateToken u.id secret accessExpMs now),
        user := some u, store := store }

/-- The login endpoint as mounted: the app-wide `/api` limiter (ceiling 100) runs
first, then the route's `authLimiter` (ceiling 10), then the handler. Returns the
response with the two limiter states after the request. -/
def loginEndpoint (gSt aSt : RLState) (verify : String → String → Bool) (store : Store)
    (origin email password secret : String) (accessExpMs now : Nat) :
    RouteOut × RLState × RLState :=
  let g := rlConsume rlWindowMs 100 gSt origin now
  if g.1 then
    ({ status := 429, message := "Too many requests from this IP, please try again later.",
       store := store }, g.2, aSt)
  else
    let a := rlConsume rlWindowMs 10 aSt origin now
    if a.1 then
      ({ status := 429, message := "Too many attempts, please try again later.",
         store := store }, g.2, a.2)
    else
      (loginHandler verify store email password secret accessExpMs now, g.2, a.2)

/-- Register route. The fresh document's defaults are modelled from the spec:
`user.model.ts` is not among the sources, and spec §3 states the record is created
unverified, active, with the user role and a fresh verification token, the password
stored through the Secret Hasher (§4.1), here the `hash` parameter. `newId` stands
for the store-assigned document id and `verifTok` for the generated verification
token. The welcome-mail try/catch swallows a send failure (`sendOk` is ignored). -/
def register (hash : String → String) (store : Store)
    (email password newId verifTok secret : String) (sendOk : Bool)
    (accessExpMs now : Nat) : RouteOut :=
  match findByEmail store email with
  | some _ => { status := 400, message := "User with this email already exists", store := store }
  | none =>
    let u : UserRec :=
      { id := newId, email := email, password := hash password, role := Role.user,
        isActive := true, isEmailVerified := false,
        emailVerificationToken := some verifTok,
        passwordResetToken := none, passwordResetExpires := none }
    let _ := sendOk
    { status := 201,
      message := "User registered successfully. Please check your email to verify your account.",
      token := some (generateToken newId secret accessExpMs now),
      user := some u, store := store ++ [u] }

/-- Verify-email route: find the record holding the token, mark it verified and clear
the token. -/
def verifyEmail (store : Store) (token : String) : RouteOut :=
  match store.find? (fun u => u.emailVerificationToken == some token) with
  | none => { status := 400, message := "Invalid or expired verification token", store := store }
  | some u =>
    { status := 200, message := "Email verified successfully",
      store := saveUser store { u with isEmailVerified := true, emailVerificationToken := none } }

/-- Forgot-password route handler: store the fresh reset token with expiry one hour
out, save, then dispatch the reset mail — a send failure fails the request with 500,
after the save. `resetTok` stands for the generated random token. -/
def forgotPassword (store : Store) (email resetTok : String) (sendOk : Bool) (now : Nat) :
    RouteOut :=
  match findByEmail store email with
  | none => { status := 404, message := "User not found", store := store }
  | some u =>
    let u2 := { u with passwordResetToken := some resetTok,
                       passwordResetExpires := some (now + 3600000) }
    let store2 := saveUser store u2
    if !sendOk then
      { status := 500, message := "Failed to send password reset email", store := store2 }
    else
      { status := 200, message := "Password reset email sent successfully", store := store2 }

/-- The Mongo criterion of the reset-password `findOne`: the stored reset token
equals the submitted one and `passwordResetExpires` is strictly in the future
(a missing expiry field never satisfies the comparison). -/
def resetMatch (token : String) (now : Nat) (u : UserRec) : Bool :=
  u.passwordResetToken == some token &&
    match u.passwordResetExpires with
    | some e => decide (now < e)
    | none => false

/-- Reset-password route: find the record whose pending token matches and is
unexpired; on a match, store the rehashed password and clear the token and expiry;
otherwise answer 400. -/
def resetPassword (hash : String → String) (store : Store) (token password : String)
    (now : Nat) : RouteOut :=
  match store.find? (resetMatch token now) with
  | none => { status := 400, message := "Invalid or expired reset token", store := store }
  | some u =>
    { status := 200, message := "Password reset successfully",
      store := saveUser store { u with password := hash password,
                                       passwordResetToken := none,
                                       passwordResetExpires := none } }

/-- Forgot-password as mounted: only the app-wide `/api` limiter (ceiling 100) runs
in front of it — the route registers no `authLimiter`. -/
def forgotPasswordEndpoint (gSt : RLState) (store : Store) (origin email resetTok : String)
    (sendOk : Bool) (now : Nat) : RouteOut × RLState :=
  let g := rlConsume rlWindowMs 100 gSt origin now
  if g.1 then
    ({ status := 429, message := "Too many requests from this IP, please try again later.",
       store := store }, g.2)
  else (forgotPassword store email resetTok sendOk now, g.2)

/-- Reset-password as mounted: only the app-wide `/api` limiter runs in front of it —
the route registers no `authLimiter`. -/
def resetPasswordEndpoint (hash : String → String) (gSt : RLState) (store : Store)
    (origin token password : String) (now : Nat) : RouteOut × RLState :=
  let g := rlConsume rlWindowMs 100 gSt origin now
  if g.1 then
    ({ status := 429, message := "Too many requests from this IP, please try again later.",
       store := store }, g.2)
  else (resetPassword hash store token password now, g.2)

/-- Run `n + 1` identical forgot-password requests back to back, threading the
limiter state and the store; the last response is returned. -/
def runForgotN (gSt : RLState) (store : Store) (origin email resetTok : String)
    (sendOk : Bool) (now : Nat) : Nat → RouteOut × RLState
  | 0 => forgotPasswordEndpoint gSt store origin email resetTok sendOk now
  | n + 1 =>
    let r := forgotPasswordEndpoint gSt store origin email resetTok sendOk now
    runForgotN r.2 r.1.store origin email resetTok sendOk now n

/-- Run `n + 1` identical reset-password requests back to back, threading the
limiter state and the store; the last response is returned. -/
def runResetN (hash : String → String) (gSt : RLState) (store : Store)
    (origin token password : String) (now : Nat) : Nat → RouteOut × RLState
  | 0 => resetPasswordEndpoint hash gSt store origin token password now
  | n + 1 =>
    let r := resetPasswordEndpoint hash gSt store origin token password now
    runResetN hash r.2 r.1.store origin token password now n

/-- Change-password route (behind `authMiddleware`, `u` is the resolved caller):
verify the current password against the stored hash; on failure answer 400 touching
nothing; on success store the rehashed new password. -/
def changePassword (hash : String → String) (verify : String → String → Bool)
    (store : Store) (u : UserRec) (currentPassword newPassword : String) : RouteOut :=
  if !(verify currentPassword u.password) then
    { status := 400, message := "Current password is incorrect", store := store }
  else
    { status := 200, message := "Password changed successfully",
      store := saveUser store { u with password := hash newPassword } }

/-- Resend-verification route (behind `authMiddleware`): refuse when already
verified; otherwise overwrite the stored verification token and save, then dispatch
the reminder — a send failure answers 500, after the save. -/
def resendVerification (store : Store) (u : UserRec) (newTok : String) (sendOk : Bool) :
    RouteOut :=
  if u.isEmailVerified then
    { status := 400, message := "Email is already verified", store := store }
  else
    let store2 := saveUser store { u with emailVerificationToken := some newTok }
    if !sendOk then
      { status := 500, message := "Failed to send verification email", store := store2 }
    else
      { status := 200, message := "Verification email sent successfully", store := store2 }

/-- The update payload a `PUT /users/:id` request may carry, one optional slot per
updatable field. -/
structure UserUpdates where
  email : Option String := none
  role : Option Role := none
  isActive : Option Bool := none
  password : Option String := none
  emailVerificationToken : Option String := none
  passwordResetToken : Option String := none
  passwordResetExpires : Option Nat := none
deriving DecidableEq, Repr

/-- Mongo `$set` application of an update payload to a record: provided slots
overwrite, absent slots leave the field alone. -/
def applyUpdates (u : UserRec) (upd : UserUpdates) : UserRec :=
  { u with
    email := upd.email.getD u.email,
    role := upd.role.getD u.role,
    isActive := upd.isActive.getD u.isActive,
    password := upd.password.getD u.password,
    emailVerificationToken :=
      match upd.emailVerificationToken with
      | some t => some t
      | none => u.emailVerificationToken,
    passwordResetToken :=
      match upd.passwordResetToken with
      | some t => some t
      | none => u.passwordResetToken,
    passwordResetExpires :=
      match upd.passwordResetExpires with
      | some e => some e
      | none => u.passwordResetExpires }

/-- Admin `PUT /users/:id`: delete the sensitive slots (password and the three token
fields) from the payload, then `findByIdAndUpdate` with the rest — the `role` slot is
applied unguarded. -/
def updateUser (store : Store) (id : String) (upd : UserUpdates) : RouteOut :=
  let upd2 := { upd with password := none, emailVerificationToken := none,
                         passwordResetToken := none, passwordResetExpires := none }
  match findById store id with
  | none => { status := 404, message := "User not found", store := store }
  | some u =>
    let u2 := applyUpdates u upd2
    { status := 200, message := "User updated successfully", user := some u2,
      store := saveUser store u2 }

/-- Admin `DELETE /users/:id`: refuse with 403 when the target's role is admin,
otherwise remove the record. -/
def deleteUser (store : Store) (id : String) : RouteOut :=
  match findById store id with
  | none => { status := 404, message := "User not found", store := store }
  | some u =>
    if u.role == Role.admin then
      { status := 403, message := "Cannot delete admin users", store := store }
    else
      { status := 200, message := "User deleted successfully",
        store := store.filter (fun v => v.id != id) }

/-- Admin `PATCH /users/:id/toggle-status`: refuse with 403 when the target's role is
admin, otherwise flip `isActive` and save. -/
def toggleStatus (store : Store) (id : String) : RouteOut :=
  match findById store id with
  | none => { status := 404, message := "User not found", store := store }
  | some u =>
    if u.role == Role.admin then
      { status := 403, message := "Cannot deactivate admin users", store := store }
    else
      let u2 := { u with isActive := !u.isActive }
      { status := 200,
        message := if u2.isActive then "User activated successfully"
                   else "User deactivated successfully",
        user := some u2, store := saveUser store u2 }

/-- Overwrite the `isEmailVerified` field of a record. -/
def setVerified (b : Bool) (u : UserRec) : UserRec := { u with isEmailVerified := b }

/-- Map a function over the user a middleware resolved, leaving rejections alone. -/
def AuthOut.mapUser (f : UserRec → UserRec) : AuthOut → AuthOut
  | .deny s m => .deny s m
  | .allow u => .allow (f u)

/-- The record write of a successful reset-password consumption: rehash the password
and clear the token and its expiry in the same write. -/
def clearReset (hash : String → String) (password : String) (u : UserRec) : UserRec :=
  { u with password := hash password, passwordResetToken := none,
           passwordResetExpires := none }

/-- Concrete record with a reset token `t` pending until instant 100, for witnesses. -/
def reset4U : UserRec :=
  { id := "u1", email := "a@x.com", password := "old#h", role := Role.user,
    isActive := true, isEmailVerified := true, emailVerificationToken := none,
    passwordResetToken := some "t", passwordResetExpires := some 100 }

/-- Concrete record whose reset token `t` expired at instant 100, for witnesses. -/
def reset5U : UserRec :=
  { id := "u5", email := "b@x.com", password := "old#h", role := Role.user,
    isActive := true, isEmailVerified := true, emailVerificationToken := none,
    passwordResetToken := some "t", passwordResetExpires := some 100 }

/-- Concrete active record whose stored hash is of the password `right`, for
witnesses. -/
def change7U : UserRec :=
  { id := "u7", email := "c@x.com", password := "right#h", role := Role.user,
    isActive := true, isEmailVerified := true, emailVerificationToken := none,
    passwordResetToken := none, passwordResetExpires := none }

/-- Concrete active record whose stored hash is of the password `pw`, for login
witnesses. -/
def login2U : UserRec :=
  { id := "u2", email := "a@x.com", password := "pw#h", role := Role.user,
    isActive := true, isEmailVerified := true, emailVerificationToken := none,
    passwordResetToken := none, passwordResetExpires := none }

/-- Concrete admin record, for the admin-protection witnesses. -/
def admin6U : UserRec :=
  { id := "a1", email := "adm@x.com", password := "h", role := Role.admin,
    isActive := true, isEmailVerified := true, emailVerificationToken := none,
    passwordResetToken := none, passwordResetExpires := none }

/-- Concrete record reachable by forgot-password, for the dispatch witnesses. -/
def fp8U : UserRec :=
  { id := "u8", email := "f@x.com", password := "h", role := Role.user,
    isActive := true, isEmailVerified := true, emailVerificationToken := none,
    passwordResetToken := none, passwordResetExpires := none }

/-- Concrete record with both action tokens pending, for the overwrite witnesses. -/
def c10U : UserRec :=
  { id := "u10", email := "t@x.com", password := "h", role := Role.user,
    isActive := true, isEmailVerified := false, emailVerificationToken := some "ov",
    passwordResetToken := some "or", passwordResetExpires := some 100 }

/-- Helper: a search over a store after `saveUser` finds nothing when the saved
record fails the predicate and so does every record of the old store whose id
differs from the saved one. -/
theorem find?_saveUser_eq_none (store : Store) (u : UserRec) (p : UserRec → Bool)
    (hu : p u = false) (hothers : ∀ v ∈ store, v.id ≠ u.id → p v = false) :
    (saveUser store u).find? p = none := by
  rw [List.find?_eq_none]
  intro v hv
  unfold saveUser at hv
  obtain ⟨w, hw, rfl⟩ := List.mem_map.mp hv
  by_cases h : w.id = u.id
  · simp [h, hu]
  · simp [beq_iff_eq, h, hothers w hw h]

/-- Helper: the record written by `saveUser` is in the resulting store, provided the
old store held a record with the same id. -/
theorem mem_saveUser_of_mem (store : Store) (u u2 : UserRec) (hmem : u ∈ store)
    (hid : u2.id = u.id) : u2 ∈ saveUser store u2 := by
  have h := List.mem_map_of_mem (fun v => if v.id == u2.id then u2 else v) hmem
  simpa [saveUser, hid] using h

/-- Helper: `findById` commutes with flipping the `isEmailVerified` field across the
store, because the predicate only reads the id. -/
theorem findById_map_setVerified (store : Store) (b : Bool) (id : String) :
    findById (store.map (setVerified b)) id = (findById store id).map (setVerified b) := by
  unfold findById
  rw [List.find?_map]
  rfl

/-- C1: a validly signed, unexpired refresh-purpose token presented where an access
token is expected is accepted, not rejected: `verifyToken` decodes it and the
authentication middleware resolves the subject with it, because neither inspects the
purpose tag of the payload. -/
theorem C1_counterexample :
    verifyToken (generateRefreshToken "u1" "s" 0) "s" 1000 = .ok "u1" ∧
    authMiddleware "s" 1000
        [{ id := "u1", email := "a@x.com", password := "h", role := Role.user,
           isActive := true, isEmailVerified := true, emailVerificationToken := none,
           passwordResetToken := none, passwordResetExpires := none }]
        (some (generateRefreshToken "u1" "s" 0)) =
      .allow { id := "u1", email := "a@x.com", password := "h", role := Role.user,
               isActive := true, isEmailVerified := true, emailVerificationToken := none,
               passwordResetToken := none, passwordResetExpires := none } :=
  ⟨rfl, rfl⟩

/-- C1 (amended): token-purpose isolation holds in one direction only. Every token
issued by `generateToken` is rejected by `verifyRefreshToken` with
`Invalid refresh token` whatever the clock says, but a validly signed refresh-purpose
token that is unexpired is accepted by `verifyToken`, which never checks purpose. -/
theorem C1_one_sided_purpose_isolation (uid secret : String) (expMs now now2 : Nat)
    (h : now2 < now + 30 * 24 * 60 * 60 * 1000) :
    verifyRefreshToken (generateToken uid secret expMs now) secret now2 =
      .error "Invalid refresh token" ∧
    verifyToken (generateRefreshToken uid secret now) secret now2 = .ok uid := by
  constructor
  · unfold verifyRefreshToken generateToken jwtVerify
    by_cases he : now + expMs ≤ now2 <;> simp [he]
  · unfold verifyToken generateRefreshToken jwtVerify
    rw [if_neg (by simp), if_neg (by simp; omega)]

/-- C1 witness: the one-sided isolation at concrete inputs. -/
theorem C1_one_sided_purpose_isolation_witness :
    verifyRefreshToken (generateToken "u1" "s" 1000 0) "s" 500 =
      .error "Invalid refresh token" ∧
    verifyToken (generateRefreshToken "u1" "s" 0) "s" 500 = .ok "u1" :=
  C1_one_sided_purpose_isolation "u1" "s" 1000 0 500 (by decide)

/-- C3: the two failures are observably different: a validly signed, unexpired token
whose subject is missing from the store draws `Invalid token. User not found.`, while
a request with no token draws `Access denied. No token provided.`, so a caller can
tell its token was valid. -/
theorem C3_counterexample :
    authMiddleware "s" 0 [] (some (generateToken "ghost" "s" 1000 0)) =
      .deny 401 "Invalid token. User not found." ∧
    authMiddleware "s" 0 [] none = .deny 401 "Access denied. No token provided." ∧
    authMiddleware "s" 0 [] (some (generateToken "ghost" "s" 1000 0)) ≠
      authMiddleware "s" 0 [] none := by
  decide

/-- C3 (amended): a validly signed, unexpired token whose subject has no record fails
with status 401 like the no-token request, but the response bodies differ — the
former says `Invalid token. User not found.`, the latter
`Access denied. No token provided.` — so the two failures are distinguishable. -/
theorem C3_unauth_same_status_different_body (secret : String) (now : Nat)
    (store : Store) (t : SignedToken) (p : JwtPayload)
    (hv : jwtVerify t secret now = .ok p)
    (hu : findById store p.userId = none) :
    authMiddleware secret now store (some t) =
      .deny 401 "Invalid token. User not found." ∧
    authMiddleware secret now store none =
      .deny 401 "Access denied. No token provided." ∧
    AuthOut.deny 401 "Invalid token. User not found." ≠
      AuthOut.deny 401 "Access denied. No token provided." := by
  refine ⟨?_, rfl, by decide⟩
  simp only [authMiddleware, hv, hu]

/-- C3 witness: the amended statement at a concrete valid token and empty store. -/
theorem C3_unauth_same_status_different_body_witness :
    authMiddleware "s2" 0 [] (some (generateToken "ghost" "s2" 1000 0)) =
      .deny 401 "Invalid token. User not found." ∧
    authMiddleware "s2" 0 [] none =
      .deny 401 "Access denied. No token provided." ∧
    AuthOut.deny 401 "Invalid token. User not found." ≠
      AuthOut.deny 401 "Access denied. No token provided." :=
  C3_unauth_same_status_different_body "s2" 0 [] (generateToken "ghost" "s2" 1000 0)
    ⟨"ghost", none⟩ rfl rfl

/-- C9: email verification never gates authentication or the admin check. Flipping
`isEmailVerified` across the whole store changes neither middleware's outcome (only
the verified bit of the attached record), and an active subject with a validly
signed, unexpired token is let through — through the admin gate too when its role is
admin — whatever `isEmailVerified` holds. -/
theorem C9_email_verification_independent (secret : String) (now : Nat) (store : Store)
    (tok : Option SignedToken) (b : Bool) (t : SignedToken) (p : JwtPayload) (u : UserRec)
    (h1 : jwtVerify t secret now = .ok p)
    (h2 : findById store p.userId = some u)
    (h3 : u.isActive = true) :
    (authMiddleware secret now (store.map (setVerified b)) tok =
        (authMiddleware secret now store tok).mapUser (setVerified b) ∧
      adminMiddleware secret now (store.map (setVerified b)) tok =
        (adminMiddleware secret now store tok).mapUser (setVerified b)) ∧
    (authMiddleware secret now store (some t) = .allow u ∧
      (u.role = Role.admin → adminMiddleware secret now store (some t) = .allow u)) := by
  have hauth : authMiddleware secret now (store.map (setVerified b)) tok =
      (authMiddleware secret now store tok).mapUser (setVerified b) := by
    cases tok with
    | none => rfl
    | some t2 =>
      simp only [authMiddleware]
      cases hjv : jwtVerify t2 secret now with
      | error e => rfl
      | ok q =>
        simp only [findById_map_setVerified]
        cases hf : findById store q.userId with
        | none => rfl
        | some w =>
          by_cases ha : w.isActive <;> simp [AuthOut.mapUser, setVerified, ha]
  have hpass : authMiddleware secret now store (some t) = .allow u := by
    simp [authMiddleware, h1, h2, h3]
  refine ⟨⟨hauth, ?_⟩, hpass, fun hr => ?_⟩
  · unfold adminMiddleware
    rw [hauth]
    cases authMiddleware secret now store tok with
    | deny s m => rfl
    | allow w =>
      by_cases hr : w.role = Role.admin <;> simp [AuthOut.mapUser, setVerified, hr]
  · unfold adminMiddleware
    rw [hpass]
    simp [hr]

/-- C9 witness: a concrete unverified active admin passes both middlewares, and the
independence equations hold at the same inputs. -/
theorem C9_email_verification_independent_witness :
    (authMiddleware "s" 0
        ([{ id := "a1", email := "adm@x.com", password := "h", role := Role.admin,
            isActive := true, isEmailVerified := false, emailVerificationToken := none,
            passwordResetToken := none, passwordResetExpires := none }].map (setVerified true))
        (some (generateToken "a1" "s" 1000 0)) =
      (authMiddleware "s" 0
          [{ id := "a1", email := "adm@x.com", password := "h", role := Role.admin,
             isActive := true, isEmailVerified := false, emailVerificationToken := none,
             passwordResetToken := none, passwordResetExpires := none }]
          (some (generateToken "a1" "s" 1000 0))).mapUser (setVerified true) ∧
      adminMiddleware "s" 0
          ([{ id := "a1", email := "adm@x.com", password := "h", role := Role.admin,
              isActive := true, isEmailVerified := false, emailVerificationToken := none,
              passwordResetToken := none, passwordResetExpires := none }].map (setVerified true))
          (some (generateToken "a1" "s" 1000 0)) =
        (adminMiddleware "s" 0
            [{ id := "a1", email := "adm@x.com", password := "h", role := Role.admin,
               isActive := true, isEmailVerified := false, emailVerificationToken := none,
               passwordResetToken := none, passwordResetExpires := none }]
            (some (generateToken "a1" "s" 1000 0))).mapUser (setVerified true)) ∧
    (authMiddleware "s" 0
        [{ id := "a1", email := "adm@x.com", password := "h", role := Role.admin,
           isActive := true, isEmailVerified := false, emailVerificationToken := none,
           passwordResetToken := none, passwordResetExpires := none }]
        (some (generateToken "a1" "s" 1000 0)) =
      .allow { id := "a1", email := "adm@x.com", password := "h", role := Role.admin,
               isActive := true, isEmailVerified := false, emailVerificationToken := none,
               passwordResetToken := none, passwordResetExpires := none } ∧
      (({ id := "a1", email := "adm@x.com", password := "h", role := Role.admin,
          isActive := true, isEmailVerified := false, emailVerificationToken := none,
          passwordResetToken := none, passwordResetExpires := none } : UserRec).role =
            Role.admin →
        adminMiddleware "s" 0
            [{ id := "a1", email := "adm@x.com", password := "h", role := Role.admin,
               isActive := true, isEmailVerified := false, emailVerificationToken := none,
               passwordResetToken := none, passwordResetExpires := none }]
            (some (generateToken "a1" "s" 1000 0)) =
          .allow { id := "a1", email := "adm@x.com", password := "h", role := Role.admin,
                   isActive := true, isEmailVerified := false,
                   emailVerificationToken := none, passwordResetToken := none,
                   passwordResetExpires := none })) :=
  C9_email_verification_independent "s" 0
    [{ id := "a1", email := "adm@x.com", password := "h", role := Role.admin,
       isActive := true, isEmailVerified := false, emailVerificationToken := none,
       passwordResetToken := none, passwordResetExpires := none }]
    (some (generateToken "a1" "s" 1000 0)) true (generateToken "a1" "s" 1000 0)
    ⟨"a1", none⟩
    { id := "a1", email := "adm@x.com", password := "h", role := Role.admin,
      isActive := true, isEmailVerified := false, emailVerificationToken := none,
      passwordResetToken := none, passwordResetExpires := none }
    rfl rfl rfl

/-- C4: a pending, unexpired reset token is single-use. Consuming it answers 200 and
writes back the record with `passwordResetToken` and `passwordResetExpires` cleared
together in one write; a second consumption with the same token — at any later
instant and with any password — fails with `Invalid or expired reset token` and
returns the store unchanged. The token is assumed pending on this record only. -/
theorem C4_reset_token_single_use (hash : String → String) (store : Store)
    (token password : String) (now : Nat) (u : UserRec)
    (hfind : store.find? (resetMatch token now) = some u)
    (huniq : ∀ v ∈ store, v.passwordResetToken = some token → v.id = u.id) :
    resetPassword hash store token password now =
      { status := 200, message := "Password reset successfully",
        store := saveUser store (clearReset hash password u) } ∧
    clearReset hash password u ∈ (resetPassword hash store token password now).store ∧
    (clearReset hash password u).passwordResetToken = none ∧
    (clearReset hash password u).passwordResetExpires = none ∧
    ∀ password2 now2,
      resetPassword hash (resetPassword hash store token password now).store token
          password2 now2 =
        { status := 400, message := "Invalid or expired reset token",
          store := (resetPassword hash store token password now).store } := by
  have hmemu : u ∈ store := List.mem_of_find?_eq_some hfind
  have hout : resetPassword hash store token password now =
      { status := 200, message := "Password reset successfully",
        store := saveUser store (clearReset hash password u) } := by
    simp [resetPassword, hfind, clearReset]
  have hnone : ∀ now2,
      (saveUser store (clearReset hash password u)).find? (resetMatch token now2) = none := by
    intro now2
    apply find?_saveUser_eq_none
    · simp [resetMatch, clearReset]
    · intro v hv hvid
      have hvtok : v.passwordResetToken ≠ some token := by
        intro hc
        exact hvid (huniq v hv hc)
      simp [resetMatch, hvtok]
  refine ⟨hout, ?_, rfl, rfl, ?_⟩
  · rw [hout]
    exact mem_saveUser_of_mem store u _ hmemu rfl
  · intro password2 now2
    rw [hout]
    simp [resetPassword, hnone now2]

/-- C4 witness: one record with a pending token expiring at 100; consumption at
instant 0 succeeds and the repeat consumption fails with the store untouched. -/
theorem C4_reset_token_single_use_witness :
    resetPassword (fun s => s ++ "#h") [reset4U] "t" "NewPass1" 0 =
      { status := 200, message := "Password reset successfully",
        store := saveUser [reset4U] (clearReset (fun s => s ++ "#h") "NewPass1" reset4U) } ∧
    resetPassword (fun s => s ++ "#h")
        (resetPassword (fun s => s ++ "#h") [reset4U] "t" "NewPass1" 0).store "t"
        "NewPass2" 50 =
      { status := 400, message := "Invalid or expired reset token",
        store := (resetPassword (fun s => s ++ "#h") [reset4U] "t" "NewPass1" 0).store } := by
  have h := C4_reset_token_single_use (fun s => s ++ "#h") [reset4U] "t" "NewPass1" 0
    reset4U rfl (by decide)
  exact ⟨h.1, h.2.2.2.2 "NewPass2" 50⟩

/-- C5: an expired reset token fails consumption with exactly the response of a token
matching no record. With the token pending only on a record whose stored expiry has
passed in one store, and matching nothing in another, both consumptions answer the
same 400 `Invalid or expired reset token` and leave their stores untouched. -/
theorem C5_expired_equals_nonmatching (hash : String → String) (store1 store2 : Store)
    (token pw1 pw2 : String) (now : Nat) (u : UserRec) (e : Nat)
    (hmem : u ∈ store1) (htok : u.passwordResetToken = some token)
    (hexp : u.passwordResetExpires = some e) (hpast : e ≤ now)
    (huniq : ∀ v ∈ store1, v.passwordResetToken = some token → v = u)
    (hnomatch : ∀ v ∈ store2, v.passwordResetToken ≠ some token) :
    resetPassword hash store1 token pw1 now =
      { status := 400, message := "Invalid or expired reset token", store := store1 } ∧
    resetPassword hash store2 token pw2 now =
      { status := 400, message := "Invalid or expired reset token", store := store2 } ∧
    (resetPassword hash store1 token pw1 now).status =
      (resetPassword hash store2 token pw2 now).status ∧
    (resetPassword hash store1 token pw1 now).message =
      (resetPassword hash store2 token pw2 now).message := by
  have h1 : store1.find? (resetMatch token now) = none := by
    rw [List.find?_eq_none]
    intro v hv
    by_cases hc : v.passwordResetToken = some token
    · have hvu := huniq v hv hc
      subst hvu
      simp [resetMatch, htok, hexp]
      omega
    · simp [resetMatch, hc]
  have h2 : store2.find? (resetMatch token now) = none := by
    rw [List.find?_eq_none]
    intro v hv
    simp [resetMatch, hnomatch v hv]
  have o1 : resetPassword hash store1 token pw1 now =
      { status := 400, message := "Invalid or expired reset token", store := store1 } := by
    simp [resetPassword, h1]
  have o2 : resetPassword hash store2 token pw2 now =
      { status := 400, message := "Invalid or expired reset token", store := store2 } := by
    simp [resetPassword, h2]
  exact ⟨o1, o2, by rw [o1, o2], by rw [o1, o2]⟩

/-- C5 witness: a token expired at instant 200 versus an empty store — the two
consumptions return identical status and message. -/
theorem C5_expired_equals_nonmatching_witness :
    resetPassword (fun s => s ++ "#h") [reset5U] "t" "NewPass1" 200 =
      { status := 400, message := "Invalid or expired reset token",
        store := [reset5U] } ∧
    resetPassword (fun s => s ++ "#h") [] "t" "NewPass2" 200 =
      { status := 400, message := "Invalid or expired reset token", store := [] } := by
  have h := C5_expired_equals_nonmatching (fun s => s ++ "#h") [reset5U] [] "t"
    "NewPass1" "NewPass2" 200 reset5U 100 (by decide) rfl rfl (by decide) (by decide)
    (by decide)
  exact ⟨h.1, h.2.1⟩

/-- C7: change-password with a current password that does not verify against the
stored hash answers 400 `Current password is incorrect` and returns the store as it
was, so every field of every record — the password hash included — is unchanged. -/
theorem C7_change_password_wrong_current (hash : String → String)
    (verify : String → String → Bool) (store : Store) (u : UserRec)
    (currentPassword newPassword : String)
    (hbad : verify currentPassword u.password = false) :
    changePassword hash verify store u currentPassword newPassword =
      { status := 400, message := "Current password is incorrect", store := store } := by
  simp [changePassword, hbad]

/-- C7 witness: with hashing modelled as appending a tag, a wrong current password
draws the 400 and the untouched store. -/
theorem C7_change_password_wrong_current_witness :
    changePassword (fun s => s ++ "#h") (fun p d => d == p ++ "#h") [change7U] change7U
        "wrong" "NewPass1" =
      { status := 400, message := "Current password is incorrect",
        store := [change7U] } :=
  C7_change_password_wrong_current (fun s => s ++ "#h") (fun p d => d == p ++ "#h")
    [change7U] change7U "wrong" "NewPass1" (by decide)

/-- C2: the 15-minute/10 limiter guards only login. The 11th forgot-password request
inside one window from a single origin reaches the handler and answers 404 (unknown
email), and the 11th reset-password request answers 400 — neither is the 429
RateLimited response, so credential and token checks do run on attempts past the
claimed ceiling. -/
theorem C2_counterexample :
    (runForgotN [] [] "1.2.3.4" "a@x.com" "tok" true 0 10).1.status = 404 ∧
    (runResetN (fun s => s ++ "#h") [] [] "1.2.3.4" "tok" "NewPass1" 0 10).1.status =
      400 ∧
    (404 : Nat) ≠ 429 ∧ (400 : Nat) ≠ 429 :=
  ⟨rfl, rfl, by decide, by decide⟩

/-- C2 (amended): only the login route sits behind the 15-minute/10 per-origin
limiter; forgot- and reset-password see only the app-wide ceiling-100 limiter. For
login: while the origin's window is live and already holds 10 counted hits, the next
request answers 429 with a response independent of the submitted credentials and the
store untouched — the throttle runs before any credential check; and once the
origin's windows have expired, a login with correct credentials for an active
account answers 200 with a fresh access token. -/
theorem C2_login_throttle (gSt aSt : RLState) (verify : String → String → Bool)
    (store : Store) (origin email password email2 password2 secret : String)
    (accessExpMs now now2 : Nat) (ea eg : RLEntry) (u : UserRec) :
    (aSt.find? (fun x => x.key == origin) = some ea → now < ea.resetTime →
      10 ≤ ea.count →
      (loginEndpoint gSt aSt verify store origin email password secret accessExpMs
          now).1.status = 429 ∧
      loginEndpoint gSt aSt verify store origin email password secret accessExpMs now =
        loginEndpoint gSt aSt verify store origin email2 password2 secret accessExpMs
          now ∧
      (loginEndpoint gSt aSt verify store origin email password secret accessExpMs
          now).1.store = store) ∧
    (gSt.find? (fun x => x.key == origin) = some eg → eg.resetTime ≤ now2 →
      aSt.find? (fun x => x.key == origin) = some ea → ea.resetTime ≤ now2 →
      findByEmail store email = some u → verify password u.password = true →
      u.isActive = true →
      (loginEndpoint gSt aSt verify store origin email password secret accessExpMs
          now2).1.status = 200 ∧
      (loginEndpoint gSt aSt verify store origin email password secret accessExpMs
          now2).1.token = some (generateToken u.id secret accessExpMs now2)) := by
  constructor
  · intro hfa hlt hc
    have ha : (rlConsume rlWindowMs 10 aSt origin now).1 = true := by
      simp [rlConsume, hfa, hlt]
      omega
    by_cases hg : (rlConsume rlWindowMs 100 gSt origin now).1 = true
    · simp [loginEndpoint, hg]
    · simp [loginEndpoint, hg, ha]
  · intro hfg hge hfa hae hu hv hia
    have hg : (rlConsume rlWindowMs 100 gSt origin now2).1 = false := by
      simp [rlConsume, hfg, Nat.not_lt.mpr hge]
    have ha : (rlConsume rlWindowMs 10 aSt origin now2).1 = false := by
      simp [rlConsume, hfa, Nat.not_lt.mpr hae]
    simp [loginEndpoint, hg, ha, loginHandler, hu, hv, hia]

/-- C2 witness: with the origin's auth window live at 10 hits, a login with correct
credentials still draws 429; at the window's reset instant the same correct login
draws 200. -/
theorem C2_login_throttle_witness :
    (loginEndpoint [{ key := "ip", resetTime := 900000, count := 1 }]
        [{ key := "ip", resetTime := 900000, count := 10 }] (fun p d => d == p ++ "#h")
        [login2U] "ip" "a@x.com" "pw" "s" 1000 0).1.status = 429 ∧
    (loginEndpoint [{ key := "ip", resetTime := 900000, count := 1 }]
        [{ key := "ip", resetTime := 900000, count := 10 }] (fun p d => d == p ++ "#h")
        [login2U] "ip" "a@x.com" "pw" "s" 1000 900000).1.status = 200 := by
  have h := C2_login_throttle [{ key := "ip", resetTime := 900000, count := 1 }]
    [{ key := "ip", resetTime := 900000, count := 10 }] (fun p d => d == p ++ "#h")
    [login2U] "ip" "a@x.com" "pw" "b@x.com" "other" "s" 1000 0 900000
    { key := "ip", resetTime := 900000, count := 10 }
    { key := "ip", resetTime := 900000, count := 1 } login2U
  exact ⟨(h.1 rfl (by decide) (by decide)).1,
         (h.2 rfl (by decide) rfl (by decide) rfl rfl rfl).1⟩

/-- C6: the update operation CAN change an admin record's role: a PUT with
`role: user` on an admin target answers 200 and writes the downgraded record — the
role guard exists only on delete and toggle-status. -/
theorem C6_counterexample :
    (updateUser [admin6U] "a1" { role := some Role.user }).status = 200 ∧
    (updateUser [admin6U] "a1" { role := some Role.user }).user.map (fun v => v.role) =
      some Role.user ∧
    (updateUser [admin6U] "a1" { role := some Role.user }).store =
      [{ admin6U with role := Role.user }] := by
  decide

/-- C6 (amended): admin records cannot be deleted or deactivated — both operations
answer 403 and return the store untouched — but the update operation is not guarded:
a role slot in the payload is applied to an admin target, answering 200 with the
downgraded record. -/
theorem C6_admin_protection (store : Store) (id : String) (u : UserRec)
    (upd : UserUpdates) (hfind : findById store id = some u)
    (hadmin : u.role = Role.admin) :
    deleteUser store id =
      { status := 403, message := "Cannot delete admin users", store := store } ∧
    toggleStatus store id =
      { status := 403, message := "Cannot deactivate admin users", store := store } ∧
    (upd.role = some Role.user →
      (updateUser store id upd).status = 200 ∧
      (updateUser store id upd).user.map (fun v => v.role) = some Role.user) := by
  refine ⟨?_, ?_, fun hrole => ?_⟩
  · simp [deleteUser, hfind, hadmin]
  · simp [toggleStatus, hfind, hadmin]
  · simp [updateUser, hfind, applyUpdates, hrole]

/-- C6 witness: the protections and the unguarded role downgrade at one concrete
admin record. -/
theorem C6_admin_protection_witness :
    deleteUser [admin6U] "a1" =
      { status := 403, message := "Cannot delete admin users", store := [admin6U] } ∧
    toggleStatus [admin6U] "a1" =
      { status := 403, message := "Cannot deactivate admin users",
        store := [admin6U] } ∧
    (updateUser [admin6U] "a1" { role := some Role.user }).status = 200 := by
  have h := C6_admin_protection [admin6U] "a1" admin6U { role := some Role.user } rfl
    rfl
  exact ⟨h.1, h.2.1, (h.2.2 rfl).1⟩

/-- C8: record mutations commit before message dispatch, and a dispatch failure never
rolls them back. Register returns the very same response whether the welcome send
fails or succeeds — 201, an access token, the new record saved; forgot-password
stores the reset token with its one-hour expiry before the send, and on a send
failure the request fails with 500 while the stored token and expiry remain on the
record. -/
theorem C8_commit_before_dispatch (hash : String → String) (store : Store)
    (email password newId verifTok secret resetTok email2 : String)
    (accessExpMs now : Nat) (u : UserRec)
    (hreg : findByEmail store email = none)
    (hfp : findByEmail store email2 = some u) :
    register hash store email password newId verifTok secret false accessExpMs now =
      register hash store email password newId verifTok secret true accessExpMs now ∧
    (register hash store email password newId verifTok secret false accessExpMs
        now).status = 201 ∧
    (register hash store email password newId verifTok secret false accessExpMs
        now).token = some (generateToken newId secret accessExpMs now) ∧
    ({ id := newId, email := email, password := hash password, role := Role.user,
       isActive := true, isEmailVerified := false,
       emailVerificationToken := some verifTok, passwordResetToken := none,
       passwordResetExpires := none } : UserRec) ∈
      (register hash store email password newId verifTok secret false accessExpMs
        now).store ∧
    (forgotPassword store email2 resetTok false now).status = 500 ∧
    { u with passwordResetToken := some resetTok,
             passwordResetExpires := some (now + 3600000) } ∈
      (forgotPassword store email2 resetTok false now).store := by
  refine ⟨rfl, ?_, ?_, ?_, ?_, ?_⟩
  · simp [register, hreg]
  · simp [register, hreg]
  · simp [register, hreg]
  · simp [forgotPassword, hfp]
  · have hm : u ∈ store := List.mem_of_find?_eq_some hfp
    simp only [forgotPassword, hfp]
    exact mem_saveUser_of_mem store u _ hm rfl

/-- C8 witness: the commit-before-dispatch behavior at a one-record store, with the
welcome and reset sends failing. -/
theorem C8_commit_before_dispatch_witness :
    register (fun s => s ++ "#h") [fp8U] "new@x.com" "Abcdef1" "n1" "vt" "s" false
        1000 0 =
      register (fun s => s ++ "#h") [fp8U] "new@x.com" "Abcdef1" "n1" "vt" "s" true
        1000 0 ∧
    (register (fun s => s ++ "#h") [fp8U] "new@x.com" "Abcdef1" "n1" "vt" "s" false
        1000 0).status = 201 ∧
    (forgotPassword [fp8U] "f@x.com" "rt" false 0).status = 500 ∧
    { fp8U with passwordResetToken := some "rt",
                passwordResetExpires := some 3600000 } ∈
      (forgotPassword [fp8U] "f@x.com" "rt" false 0).store := by
  have h := C8_commit_before_dispatch (fun s => s ++ "#h") [fp8U] "new@x.com"
    "Abcdef1" "n1" "vt" "s" "rt" "f@x.com" 1000 0 fp8U rfl rfl
  exact ⟨h.1, h.2.1, h.2.2.2.2.1, h.2.2.2.2.2⟩

/-- C10: each account carries at most one pending action token of a kind.
Forgot-password overwrites the single stored reset token — the record then holds the
fresh token, and a previously issued, different reset token fails consumption with
400 and an unchanged store; resend-verification likewise overwrites the stored
verification token, and a previously issued, different verification token fails
verify-email with 400. The old tokens are assumed pending only on this record. -/
theorem C10_single_pending_action_token (hash : String → String) (store : Store)
    (u : UserRec) (email oldReset newReset oldVerif newVerif : String)
    (sendOk : Bool) (now : Nat)
    (hfp : findByEmail store email = some u)
    (hne1 : oldReset ≠ newReset)
    (huniq1 : ∀ v ∈ store, v.passwordResetToken = some oldReset → v.id = u.id)
    (hunv : u.isEmailVerified = false)
    (hne2 : oldVerif ≠ newVerif)
    (huniq2 : ∀ v ∈ store, v.emailVerificationToken = some oldVerif → v.id = u.id) :
    ({ u with passwordResetToken := some newReset,
              passwordResetExpires := some (now + 3600000) } ∈
        (forgotPassword store email newReset sendOk now).store ∧
      ∀ pw now2,
        resetPassword hash (forgotPassword store email newReset sendOk now).store
            oldReset pw now2 =
          { status := 400, message := "Invalid or expired reset token",
            store := (forgotPassword store email newReset sendOk now).store }) ∧
    ({ u with emailVerificationToken := some newVerif } ∈
        (resendVerification store u newVerif sendOk).store ∧
      verifyEmail (resendVerification store u newVerif sendOk).store oldVerif =
        { status := 400, message := "Invalid or expired verification token",
          store := (resendVerification store u newVerif sendOk).store }) := by
  have hmem : u ∈ store := List.mem_of_find?_eq_some hfp
  have hs1 : (forgotPassword store email newReset sendOk now).store =
      saveUser store { u with passwordResetToken := some newReset,
                              passwordResetExpires := some (now + 3600000) } := by
    cases sendOk <;> simp [forgotPassword, hfp]
  have hs2 : (resendVerification store u newVerif sendOk).store =
      saveUser store { u with emailVerificationToken := some newVerif } := by
    cases sendOk <;> simp [resendVerification, hunv]
  have hr1 : ∀ now2,
      (saveUser store { u with passwordResetToken := some newReset,
                               passwordResetExpires := some (now + 3600000) }).find?
        (resetMatch oldReset now2) = none := by
    intro now2
    apply find?_saveUser_eq_none
    · simp [resetMatch, Ne.symm hne1]
    · intro v hv hvid
      have hvtok : v.passwordResetToken ≠ some oldReset := fun hc =>
        hvid (huniq1 v hv hc)
      simp [resetMatch, hvtok]
  have hr2 : (saveUser store { u with emailVerificationToken := some newVerif }).find?
      (fun v => v.emailVerificationToken == some oldVerif) = none := by
    apply find?_saveUser_eq_none
    · simp [Ne.symm hne2]
    · intro v hv hvid
      have hvtok : v.emailVerificationToken ≠ some oldVerif := fun hc =>
        hvid (huniq2 v hv hc)
      simp [hvtok]
  refine ⟨⟨?_, ?_⟩, ?_, ?_⟩
  · rw [hs1]
    exact mem_saveUser_of_mem store u _ hmem rfl
  · intro pw now2
    rw [hs1]
    simp [resetPassword, hr1 now2]
  · rw [hs2]
    exact mem_saveUser_of_mem store u _ hmem rfl
  · rw [hs2]
    simp [verifyEmail, hr2]

/-- C10 witness: one record with both tokens pending; issuing fresh ones revokes the
old reset token (consumption fails) and the old verification token (verify-email
fails). -/
theorem C10_single_pending_action_token_witness :
    ({ c10U with passwordResetToken := some "nr",
                 passwordResetExpires := some 3600000 } ∈
        (forgotPassword [c10U] "t@x.com" "nr" true 0).store ∧
      resetPassword (fun s => s ++ "#h")
          (forgotPassword [c10U] "t@x.com" "nr" true 0).store "or" "NewPass1" 5 =
        { status := 400, message := "Invalid or expired reset token",
          store := (forgotPassword [c10U] "t@x.com" "nr" true 0).store }) ∧
    ({ c10U with emailVerificationToken := some "nv" } ∈
        (resendVerification [c10U] c10U "nv" true).store ∧
      verifyEmail (resendVerification [c10U] c10U "nv" true).store "ov" =
        { status := 400, message := "Invalid or expired verification token",
          store := (resendVerification [c10U] c10U "nv" true).store }) := by
  have h := C10_single_pending_action_token (fun s => s ++ "#h") [c10U] c10U
    "t@x.com" "or" "nr" "ov" "nv" true 0 rfl (by decide) (by decide) rfl (by decide)
    (by decide)
  exact ⟨⟨h.1.1, h.1.2 "NewPass1" 5⟩, h.2.1, h.2.2⟩

end MelikShop
